import Mathlib

/-!
Verification of the Carousel state machine of src/script.js.

The Carousel class (src/script.js, lines 39-197) owns:
  - currentIndex (a JS number; modelled as Int, since no range check exists),
  - isAnimating (the animation lock; the 500 ms setTimeout that releases it is
    modelled as a separate releaseLock event),
  - autoplayInterval (a setInterval handle, or null; modelled as the Bool
    autoplayHandle, together with two scheduler-level ghost fields:
    liveTimers counts the interval callbacks currently scheduled in the
    browser, and autoplayGen counts how many times setInterval has run),
  - the rendered DOM outputs: the track transform translateX(-index*100%)
    (trackOffset, in percent), the active class and aria-selected attribute of
    each indicator (indActive, indSelected: one Bool per indicator element),
    and the disabled / aria-disabled flags of the two buttons.

The touch handlers (lines 143-174) close over startX, currentX, isDragging:
modelled as TouchState. The debounced resize handler (lines 481-494) and the
DOMContentLoaded mount (lines 448-475) are modelled by PageState below.
-/

structure CarouselState where
  slideCount : Nat
  currentIndex : Int
  isAnimating : Bool
  trackOffset : Int
  indActive : List Bool
  indSelected : List Bool
  prevDisabled : Bool
  nextDisabled : Bool
  prevAriaDisabled : Bool
  nextAriaDisabled : Bool
  autoplayHandle : Bool
  liveTimers : Nat
  autoplayGen : Nat
deriving Repr, DecidableEq

/-- updateButtonStates (lines 114-122): prev is disabled iff currentIndex is 0,
next is disabled iff currentIndex is slides.length - 1; aria-disabled mirrors. -/
def updateButtonStates (s : CarouselState) : CarouselState :=
  { s with
    prevDisabled := decide (s.currentIndex = 0)
    nextDisabled := decide (s.currentIndex = (s.slideCount : Int) - 1)
    prevAriaDisabled := decide (s.currentIndex = 0)
    nextAriaDisabled := decide (s.currentIndex = (s.slideCount : Int) - 1) }

/-- updateCarousel (lines 85-112): early return when isAnimating and animate;
otherwise set the lock, set currentIndex (no range check in the source), render
offset -index*100, toggle each indicator class and aria-selected to (i == index),
update the buttons; with animate the lock release is left to the scheduled
500 ms callback (releaseLock below), without animate the lock is cleared at once. -/
def updateCarousel (s : CarouselState) (index : Int) (animate : Bool) : CarouselState :=
  if s.isAnimating && animate then s
  else
    let s1 : CarouselState :=
      { s with
        isAnimating := true
        currentIndex := index
        trackOffset := -index * 100
        indActive := (List.range s.indActive.length).map (fun (i : Nat) => decide ((i : Int) = index))
        indSelected := (List.range s.indSelected.length).map (fun (i : Nat) => decide ((i : Int) = index)) }
    let s2 := updateButtonStates s1
    if animate then s2 else { s2 with isAnimating := false }

/-- The setTimeout callback of lines 106-108: it only clears the lock. -/
def releaseLock (s : CarouselState) : CarouselState :=
  { s with isAnimating := false }

/-- startAutoplay (lines 176-184): setInterval is called unconditionally; the
field is overwritten, a new recurring callback goes live, and any interval whose
handle is overwritten here leaks (it stays scheduled but is unreachable). -/
def startAutoplay (s : CarouselState) : CarouselState :=
  { s with
    autoplayHandle := true
    liveTimers := s.liveTimers + 1
    autoplayGen := s.autoplayGen + 1 }

/-- stopAutoplay (lines 186-191): clearInterval only when the handle is non-null;
only the stored interval is descheduled. -/
def stopAutoplay (s : CarouselState) : CarouselState :=
  if s.autoplayHandle then
    { s with autoplayHandle := false, liveTimers := s.liveTimers - 1 }
  else s

/-- resetAutoplay (lines 193-196): stop then start. -/
def resetAutoplay (s : CarouselState) : CarouselState :=
  startAutoplay (stopAutoplay s)

/-- next (lines 124-129): guarded by currentIndex < slides.length - 1;
updateCarousel(currentIndex + 1) with animate defaulted to true, then resetAutoplay. -/
def next (s : CarouselState) : CarouselState :=
  if s.currentIndex < (s.slideCount : Int) - 1 then
    resetAutoplay (updateCarousel s (s.currentIndex + 1) true)
  else s

/-- prev (lines 131-136): guarded by currentIndex > 0. -/
def prev (s : CarouselState) : CarouselState :=
  if 0 < s.currentIndex then
    resetAutoplay (updateCarousel s (s.currentIndex - 1) true)
  else s

/-- goToSlide (lines 138-141): updateCarousel(index) with animate defaulted to
true, then resetAutoplay; the index is not validated. -/
def goToSlide (s : CarouselState) (index : Int) : CarouselState :=
  resetAutoplay (updateCarousel s index true)

/-- The setInterval callback of lines 177-183: next() when not at the last
slide, otherwise updateCarousel(0) with animate defaulted to true. -/
def autoplayTick (s : CarouselState) : CarouselState :=
  if s.currentIndex < (s.slideCount : Int) - 1 then next s
  else updateCarousel s 0 true

/-- Field state right after the constructor body (lines 40-52), before init()
runs: index 0, lock clear, null interval handle; n slides, k indicator elements
whose initial classes are irrelevant (init overwrites them). -/
def mkCarousel (n k : Nat) : CarouselState :=
  { slideCount := n
    currentIndex := 0
    isAnimating := false
    trackOffset := 0
    indActive := List.replicate k false
    indSelected := List.replicate k false
    prevDisabled := false
    nextDisabled := false
    prevAriaDisabled := false
    nextAriaDisabled := false
    autoplayHandle := false
    liveTimers := 0
    autoplayGen := 0 }

/-- init (lines 56-83): updateCarousel(0, false), listener wiring (state-free),
then startAutoplay(). -/
def initState (n k : Nat) : CarouselState :=
  startAutoplay (updateCarousel (mkCarousel n k) 0 false)

/-- The closure state of addTouchSupport (lines 143-147): startX and currentX
start at 0 and are never reset between gestures; isDragging gates the handlers. -/
structure TouchState where
  startX : Int
  currentX : Int
  isDragging : Bool
deriving Repr, DecidableEq

def initTouch : TouchState :=
  { startX := 0, currentX := 0, isDragging := false }

/-- touchstart (lines 148-151): records startX and sets isDragging; it does NOT
reset currentX. -/
def touchstart (t : TouchState) (x : Int) : TouchState :=
  { t with startX := x, isDragging := true }

/-- touchmove (lines 153-156): records currentX while dragging. -/
def touchmove (t : TouchState) (x : Int) : TouchState :=
  if t.isDragging then { t with currentX := x } else t

/-- touchend (lines 158-173): diff = startX - currentX; when |diff| exceeds the
50px threshold, next() on positive diff, prev() on negative; then isDragging
is cleared. Returns the new closure state and the new carousel state. -/
def touchend (t : TouchState) (c : CarouselState) : TouchState × CarouselState :=
  if t.isDragging then
    let diff := t.startX - t.currentX
    let c1 := if 50 < |diff| then (if 0 < diff then next c else prev c) else c
    ({ t with isDragging := false }, c1)
  else (t, c)

/-- The autoplay-related events of the spec claim about timer handles: direct
start/stop/reset calls and the hover listeners of lines 81-82 (mouseenter stops,
mouseleave starts). -/
inductive APEvent
  | start
  | stop
  | reset
  | hoverEnter
  | hoverLeave
deriving Repr, DecidableEq

def apStep (s : CarouselState) : APEvent → CarouselState
  | .start => startAutoplay s
  | .stop => stopAutoplay s
  | .reset => resetAutoplay s
  | .hoverEnter => stopAutoplay s
  | .hoverLeave => startAutoplay s

def apRun (s : CarouselState) : List APEvent → CarouselState
  | [] => s
  | e :: es => apRun (apStep s e) es

/-- Events that run startAutoplay directly. -/
def apStartsTimer : APEvent → Bool
  | .start | .hoverLeave => true
  | _ => false

/-- A trace is guarded when every direct start (including mouseleave) arrives
with no stored interval handle; this is the discipline under which the
single-timer invariant can hold, since startAutoplay itself never checks. -/
def apGuardedB : CarouselState → List APEvent → Bool
  | _, [] => true
  | s, e :: es =>
    (!(apStartsTimer e) || !s.autoplayHandle) && apGuardedB (apStep s e) es

/-- Page-level state for the mount (lines 448-475) and the debounced resize
listener (lines 481-494). instanceAttached models whether the expression
carouselContainer.carouselInstance read on line 488 is set: the code never
assigns it (the DOMContentLoaded handler on line 455 discards the constructed
instance), so mountPage sets it to false. pendingResize is the resizeTimer:
some t means the debounced callback is scheduled to fire at time t.
resyncCount counts executed updateCarousel(currentIndex, false) re-syncs. -/
structure PageState where
  carousel : CarouselState
  instanceAttached : Bool
  pendingResize : Option Nat
  resyncCount : Nat
deriving Repr, DecidableEq

/-- DOMContentLoaded (lines 448-475): constructs the Carousel; no assignment to
carouselContainer.carouselInstance exists anywhere in the file. -/
def mountPage (n k : Nat) : PageState :=
  { carousel := initState n k
    instanceAttached := false
    pendingResize := none
    resyncCount := 0 }

/-- Body of the debounced resize callback (lines 484-493): it looks up
carouselContainer.carouselInstance; only if that is set does it run
updateCarousel(currentIndex, false). -/
def fireResize (p : PageState) : PageState :=
  if p.instanceAttached then
    { p with
      carousel := updateCarousel p.carousel p.carousel.currentIndex false
      resyncCount := p.resyncCount + 1 }
  else p

/-- A resize event at time t (lines 482-484): clearTimeout on the pending timer
then setTimeout of the callback 250 ms out. -/
def resizeEvent (p : PageState) (t : Nat) : PageState :=
  { p with pendingResize := some (t + 250) }

/-- Advancing the clock to time t: a pending debounced callback whose deadline
has arrived fires; otherwise nothing happens. -/
def deliverResize (p : PageState) (t : Nat) : PageState :=
  match p.pendingResize with
  | some d => if d ≤ t then fireResize { p with pendingResize := none } else p
  | none => p

/-- Processing a burst of resize events at the given times, in order; before
each event any due pending callback is delivered first. -/
def runResizeBurst : PageState → List Nat → PageState
  | p, [] => p
  | p, t :: ts => runResizeBurst (resizeEvent (deliverResize p t) t) ts

/-- The spec invariant on the slide index. -/
def IndexInv (s : CarouselState) : Prop :=
  0 ≤ s.currentIndex ∧ s.currentIndex < (s.slideCount : Int)

instance (s : CarouselState) : Decidable (IndexInv s) := by
  unfold IndexInv; infer_instance

section Helpers

/-- With animate = false the early return is impossible and the lock comes back
clear: line 86 tests isAnimating AND animate, line 110 clears the lock. -/
lemma updateCarousel_false (s : CarouselState) (i : Int) :
    updateCarousel s i false =
      { s with
        isAnimating := false
        currentIndex := i
        trackOffset := -i * 100
        indActive := (List.range s.indActive.length).map (fun (j : Nat) => decide ((j : Int) = i))
        indSelected := (List.range s.indSelected.length).map (fun (j : Nat) => decide ((j : Int) = i))
        prevDisabled := decide (i = 0)
        nextDisabled := decide (i = (s.slideCount : Int) - 1)
        prevAriaDisabled := decide (i = 0)
        nextAriaDisabled := decide (i = (s.slideCount : Int) - 1) } := by
  simp [updateCarousel, updateButtonStates]

/-- With animate = true and the lock held, the call is dropped (line 86). -/
lemma updateCarousel_drop (s : CarouselState) (i : Int) (h : s.isAnimating = true) :
    updateCarousel s i true = s := by
  simp [updateCarousel, h]

/-- With animate = true and the lock clear, the move happens and the lock is
left set (its release is the separate scheduled callback). -/
lemma updateCarousel_true (s : CarouselState) (i : Int) (h : s.isAnimating = false) :
    updateCarousel s i true =
      { s with
        isAnimating := true
        currentIndex := i
        trackOffset := -i * 100
        indActive := (List.range s.indActive.length).map (fun (j : Nat) => decide ((j : Int) = i))
        indSelected := (List.range s.indSelected.length).map (fun (j : Nat) => decide ((j : Int) = i))
        prevDisabled := decide (i = 0)
        nextDisabled := decide (i = (s.slideCount : Int) - 1)
        prevAriaDisabled := decide (i = 0)
        nextAriaDisabled := decide (i = (s.slideCount : Int) - 1) } := by
  simp [updateCarousel, updateButtonStates, h]

/-- The autoplay timer helpers never touch the navigation or rendering fields. -/
lemma resetAutoplay_fields (s : CarouselState) :
    (resetAutoplay s).currentIndex = s.currentIndex ∧
    (resetAutoplay s).slideCount = s.slideCount ∧
    (resetAutoplay s).isAnimating = s.isAnimating ∧
    (resetAutoplay s).trackOffset = s.trackOffset ∧
    (resetAutoplay s).indActive = s.indActive ∧
    (resetAutoplay s).indSelected = s.indSelected ∧
    (resetAutoplay s).prevDisabled = s.prevDisabled ∧
    (resetAutoplay s).nextDisabled = s.nextDisabled ∧
    (resetAutoplay s).prevAriaDisabled = s.prevAriaDisabled ∧
    (resetAutoplay s).nextAriaDisabled = s.nextAriaDisabled := by
  unfold resetAutoplay startAutoplay stopAutoplay
  split <;> simp

@[simp] lemma resetAutoplay_currentIndex (s : CarouselState) :
    (resetAutoplay s).currentIndex = s.currentIndex := (resetAutoplay_fields s).1

@[simp] lemma resetAutoplay_slideCount (s : CarouselState) :
    (resetAutoplay s).slideCount = s.slideCount := (resetAutoplay_fields s).2.1

@[simp] lemma resetAutoplay_isAnimating (s : CarouselState) :
    (resetAutoplay s).isAnimating = s.isAnimating := (resetAutoplay_fields s).2.2.1

@[simp] lemma resetAutoplay_autoplayGen (s : CarouselState) :
    (resetAutoplay s).autoplayGen = s.autoplayGen + 1 := by
  unfold resetAutoplay startAutoplay stopAutoplay
  split <;> simp

/-- updateCarousel never touches the autoplay scheduler fields. -/
lemma updateCarousel_timer_fields (s : CarouselState) (i : Int) (a : Bool) :
    (updateCarousel s i a).autoplayHandle = s.autoplayHandle ∧
    (updateCarousel s i a).liveTimers = s.liveTimers ∧
    (updateCarousel s i a).autoplayGen = s.autoplayGen ∧
    (updateCarousel s i a).slideCount = s.slideCount := by
  unfold updateCarousel updateButtonStates
  split
  · simp
  · split <;> simp

@[simp] lemma updateCarousel_autoplayGen (s : CarouselState) (i : Int) (a : Bool) :
    (updateCarousel s i a).autoplayGen = s.autoplayGen :=
  (updateCarousel_timer_fields s i a).2.2.1

@[simp] lemma updateCarousel_slideCount (s : CarouselState) (i : Int) (a : Bool) :
    (updateCarousel s i a).slideCount = s.slideCount :=
  (updateCarousel_timer_fields s i a).2.2.2

/-- currentIndex after an animated call: unchanged when dropped, else the target. -/
lemma updateCarousel_true_currentIndex (s : CarouselState) (i : Int) :
    (updateCarousel s i true).currentIndex =
      if s.isAnimating = true then s.currentIndex else i := by
  cases hA : s.isAnimating
  · simp [updateCarousel_true s i hA, hA]
  · simp [updateCarousel_drop s i hA, hA]

end Helpers

section IndexInvLemmas

lemma IndexInv_next (s : CarouselState) (h : IndexInv s) : IndexInv (next s) := by
  obtain ⟨h0, h1⟩ := h
  by_cases hc : s.currentIndex < (s.slideCount : Int) - 1
  · simp only [next, if_pos hc, IndexInv, resetAutoplay_currentIndex, resetAutoplay_slideCount,
      updateCarousel_true_currentIndex, updateCarousel_slideCount]
    split <;> omega
  · simpa only [next, if_neg hc, IndexInv] using ⟨h0, h1⟩

lemma IndexInv_prev (s : CarouselState) (h : IndexInv s) : IndexInv (prev s) := by
  obtain ⟨h0, h1⟩ := h
  by_cases hc : 0 < s.currentIndex
  · simp only [prev, if_pos hc, IndexInv, resetAutoplay_currentIndex, resetAutoplay_slideCount,
      updateCarousel_true_currentIndex, updateCarousel_slideCount]
    split <;> omega
  · simpa only [prev, if_neg hc, IndexInv] using ⟨h0, h1⟩

lemma IndexInv_goToSlide (s : CarouselState) (i : Int) (h : IndexInv s)
    (hi0 : 0 ≤ i) (hi1 : i < (s.slideCount : Int)) : IndexInv (goToSlide s i) := by
  obtain ⟨h0, h1⟩ := h
  simp only [goToSlide, IndexInv, resetAutoplay_currentIndex, resetAutoplay_slideCount,
    updateCarousel_true_currentIndex, updateCarousel_slideCount]
  split <;> omega

lemma IndexInv_tick (s : CarouselState) (h : IndexInv s) : IndexInv (autoplayTick s) := by
  by_cases hc : s.currentIndex < (s.slideCount : Int) - 1
  · simpa only [autoplayTick, if_pos hc] using IndexInv_next s h
  · obtain ⟨h0, h1⟩ := h
    simp only [autoplayTick, if_neg hc, IndexInv,
      updateCarousel_true_currentIndex, updateCarousel_slideCount]
    split <;> omega

lemma IndexInv_resync (s : CarouselState) (h : IndexInv s) :
    IndexInv (updateCarousel s s.currentIndex false) := by
  obtain ⟨h0, h1⟩ := h
  simp only [updateCarousel_false, IndexInv]
  exact ⟨h0, h1⟩

lemma IndexInv_touchend (t : TouchState) (s : CarouselState) (h : IndexInv s) :
    IndexInv (touchend t s).2 := by
  by_cases hd : t.isDragging = true
  · simp only [touchend, if_pos hd]
    split
    · split
      · exact IndexInv_next s h
      · exact IndexInv_prev s h
    · exact h
  · simp only [touchend, if_neg hd]
    exact h

lemma IndexInv_init (n k : Nat) (hn : 1 ≤ n) : IndexInv (initState n k) := by
  simp only [initState, IndexInv, startAutoplay, updateCarousel_false, mkCarousel]
  omega

end IndexInvLemmas

/-- C1 counterexample: goTo is not a no-op on an out-of-range index. With 3
slides, goToSlide 5 from the freshly mounted state changes the state, sets
currentIndex to 5, and breaks 0 <= currentIndex < slideCount (updateCarousel
has no range check; lines 85-112 apply the index verbatim). -/
theorem goToSlide_out_of_range_changes_state :
    goToSlide (initState 3 3) 5 ≠ initState 3 3 ∧
    (goToSlide (initState 3 3) 5).currentIndex = 5 ∧
    ¬ (goToSlide (initState 3 3) 5).currentIndex < ((initState 3 3).slideCount : Int) := by
  decide

/-- C1 amended: updateCarousel performs no range check, so an out-of-range
goTo is applied verbatim rather than rejected; the invariant
0 <= currentIndex < slideCount nevertheless holds along every run of the
operations the page actually wires up - construction (slideCount >= 1), next,
prev, the autoplay tick, touch-gesture resolution, the non-animated resize
re-sync, the lock-release callback, the autoplay timer managers, and indicator
clicks, whose indices the init wiring draws from the indicator list and which
are assumed in range. -/
theorem carousel_index_invariant :
    (∀ n k : Nat, 1 ≤ n → IndexInv (initState n k)) ∧
    (∀ s : CarouselState, IndexInv s →
      IndexInv (next s) ∧
      IndexInv (prev s) ∧
      IndexInv (autoplayTick s) ∧
      IndexInv (updateCarousel s s.currentIndex false) ∧
      IndexInv (releaseLock s) ∧
      IndexInv (startAutoplay s) ∧
      IndexInv (stopAutoplay s) ∧
      IndexInv (resetAutoplay s) ∧
      (∀ t : TouchState, IndexInv (touchend t s).2) ∧
      (∀ i : Int, 0 ≤ i → i < (s.slideCount : Int) → IndexInv (goToSlide s i))) := by
  constructor
  · exact fun n k hn => IndexInv_init n k hn
  · intro s h
    refine ⟨IndexInv_next s h, IndexInv_prev s h, IndexInv_tick s h, IndexInv_resync s h,
      ?_, ?_, ?_, ?_, fun t => IndexInv_touchend t s h,
      fun i hi0 hi1 => IndexInv_goToSlide s i h hi0 hi1⟩
    · exact h
    · exact h
    · obtain ⟨h0, h1⟩ := h
      simp only [IndexInv, stopAutoplay]
      split <;> exact ⟨h0, h1⟩
    · obtain ⟨h0, h1⟩ := h
      simpa only [IndexInv, resetAutoplay_currentIndex, resetAutoplay_slideCount] using ⟨h0, h1⟩

/-- C2: for every valid index, after updateCarousel(index, false) the index is
taken, the track offset is -index*100 percent, exactly one indicator - the one
at position index - carries the active class and aria-selected true, prev is
disabled (and aria-disabled) iff index = 0, and next is disabled (and
aria-disabled) iff index = slideCount - 1; the lock is clear afterwards. -/
theorem goTo_false_renders (s : CarouselState) (index : Int)
    (_h0 : 0 ≤ index) (_h1 : index < (s.slideCount : Int))
    (hA : s.indActive.length = s.slideCount)
    (hS : s.indSelected.length = s.slideCount) :
    (updateCarousel s index false).currentIndex = index ∧
    (updateCarousel s index false).trackOffset = -index * 100 ∧
    (updateCarousel s index false).indActive.length = s.slideCount ∧
    (updateCarousel s index false).indSelected.length = s.slideCount ∧
    (∀ i : Nat, (hi : i < (updateCarousel s index false).indActive.length) →
      ((updateCarousel s index false).indActive[i] = true ↔ (i : Int) = index)) ∧
    (∀ i : Nat, (hi : i < (updateCarousel s index false).indSelected.length) →
      ((updateCarousel s index false).indSelected[i] = true ↔ (i : Int) = index)) ∧
    ((updateCarousel s index false).prevDisabled = true ↔ index = 0) ∧
    ((updateCarousel s index false).nextDisabled = true ↔ index = (s.slideCount : Int) - 1) ∧
    (updateCarousel s index false).prevAriaDisabled = (updateCarousel s index false).prevDisabled ∧
    (updateCarousel s index false).nextAriaDisabled = (updateCarousel s index false).nextDisabled ∧
    (updateCarousel s index false).isAnimating = false := by
  refine ⟨?_, ?_, ?_, ?_, ?_, ?_, ?_, ?_, ?_, ?_, ?_⟩ <;>
    simp [updateCarousel_false, hA, hS]

/-- C2 witness: the render contract applied to the mounted 3-slide carousel at
index 1. -/
theorem goTo_false_renders_witness :
    (updateCarousel (initState 3 3) 1 false).currentIndex = 1 ∧
    (updateCarousel (initState 3 3) 1 false).trackOffset = -1 * 100 := by
  have h := goTo_false_renders (initState 3 3) 1 (by decide) (by decide) (by decide) (by decide)
  exact ⟨h.1, h.2.1⟩

/-- C3 counterexample: on the freshly mounted 3-slide carousel (currentIndex 0,
one setInterval so far), the autoplay tick advances the index but bumps the
setInterval generation from 1 to 2: the interval callback on line 179 invokes
next(), whose line 127 resetAutoplay() stops and restarts the autoplay timer,
so the tick does restart the autoplay countdown. -/
theorem autoplay_tick_restarts_timer :
    (autoplayTick (initState 3 3)).currentIndex = 1 ∧
    ¬ (autoplayTick (initState 3 3)).autoplayGen = (initState 3 3).autoplayGen := by
  decide

/-- C3 amended: when the autoplay tick fires with currentIndex < slideCount - 1
it invokes next() in full, so with the lock clear currentIndex advances by one,
and in every case the autoplay interval is cleared and a fresh one started
(resetAutoplay runs): each tick restarts the autoplay countdown with a new
timer handle. -/
theorem autoplay_tick_calls_next (s : CarouselState)
    (hc : s.currentIndex < (s.slideCount : Int) - 1) :
    autoplayTick s = next s ∧
    (autoplayTick s).autoplayGen = s.autoplayGen + 1 ∧
    (s.isAnimating = false → (autoplayTick s).currentIndex = s.currentIndex + 1) := by
  have he : autoplayTick s = next s := by
    simp only [autoplayTick, if_pos hc]
  refine ⟨he, ?_, ?_⟩
  · rw [he]
    simp only [next, if_pos hc, resetAutoplay_autoplayGen, updateCarousel_autoplayGen]
  · intro hA
    rw [he]
    simp only [next, if_pos hc, resetAutoplay_currentIndex, updateCarousel_true_currentIndex, hA]
    simp

/-- C3 witness: the amended tick behavior at the mounted 3-slide carousel. -/
theorem autoplay_tick_calls_next_witness :
    autoplayTick (initState 3 3) = next (initState 3 3) ∧
    (autoplayTick (initState 3 3)).autoplayGen = (initState 3 3).autoplayGen + 1 := by
  have h := autoplay_tick_calls_next (initState 3 3) (by decide)
  exact ⟨h.1, h.2.1⟩

/-- C4: with the animation lock clear, next() at the last slide returns the
state entirely unchanged (the guard on line 125 fails, so neither
updateCarousel nor resetAutoplay runs), prev() at index 0 likewise (line 132),
while the autoplay tick at the last slide runs updateCarousel(0) and wraps
currentIndex to 0: autoplay wraps, manual navigation does not. -/
theorem manual_noop_autoplay_wraps (s : CarouselState) (hA : s.isAnimating = false) :
    (s.currentIndex = (s.slideCount : Int) - 1 →
      next s = s ∧ (autoplayTick s).currentIndex = 0) ∧
    (s.currentIndex = 0 → prev s = s) := by
  constructor
  · intro hlast
    constructor
    · simp only [next, hlast]
      simp
    · simp only [autoplayTick, hlast]
      simp [updateCarousel_true_currentIndex, hA]
  · intro hfirst
    simp only [prev, hfirst]
    simp

/-- C4 witness: at the mounted 3-slide carousel moved to its last slide (lock
released), next is the identity and the tick wraps to 0; at the mounted state
itself, prev is the identity. -/
theorem manual_noop_autoplay_wraps_witness :
    (next (releaseLock (goToSlide (initState 3 3) 2)) =
      releaseLock (goToSlide (initState 3 3) 2) ∧
     (autoplayTick (releaseLock (goToSlide (initState 3 3) 2))).currentIndex = 0) ∧
    prev (initState 3 3) = initState 3 3 :=
  ⟨(manual_noop_autoplay_wraps (releaseLock (goToSlide (initState 3 3) 2))
      (by decide)).1 (by decide),
   (manual_noop_autoplay_wraps (initState 3 3) (by decide)).2 (by decide)⟩

/-- C5: while isAnimating holds, every animated navigation (goToSlide, and the
click paths next and prev) is dropped by the early return on line 86: index,
rendered offset, indicator classes and aria-selected, and all button flags stay
as they were. A dropped call is never replayed: of two manual navigations
issued before the lock releases only the first lands, and the scheduled
release callback merely clears the flag, so the index still shows the first
target after the lock clears. -/
theorem locked_nav_dropped (s : CarouselState) (i j : Int) :
    (s.isAnimating = true →
      (goToSlide s i).currentIndex = s.currentIndex ∧
      (goToSlide s i).trackOffset = s.trackOffset ∧
      (goToSlide s i).indActive = s.indActive ∧
      (goToSlide s i).indSelected = s.indSelected ∧
      (goToSlide s i).prevDisabled = s.prevDisabled ∧
      (goToSlide s i).nextDisabled = s.nextDisabled ∧
      (goToSlide s i).prevAriaDisabled = s.prevAriaDisabled ∧
      (goToSlide s i).nextAriaDisabled = s.nextAriaDisabled ∧
      (next s).currentIndex = s.currentIndex ∧
      (prev s).currentIndex = s.currentIndex) ∧
    (s.isAnimating = false →
      (goToSlide s i).isAnimating = true ∧
      (goToSlide s i).currentIndex = i ∧
      (goToSlide (goToSlide s i) j).currentIndex = i ∧
      (releaseLock (goToSlide (goToSlide s i) j)).currentIndex = i) := by
  constructor
  · intro hA
    have hfields := resetAutoplay_fields s
    obtain ⟨f1, f2, f3, f4, f5, f6, f7, f8, f9, f10⟩ := hfields
    refine ⟨?_, ?_, ?_, ?_, ?_, ?_, ?_, ?_, ?_, ?_⟩ <;>
      simp [goToSlide, next, prev, updateCarousel_drop, hA, f1, f4, f5, f6, f7, f8, f9, f10] <;>
      split <;>
      simp [f1]
  · intro hA
    have h1 : (goToSlide s i).isAnimating = true := by
      simp [goToSlide, updateCarousel_true s i hA]
    have h2 : (goToSlide s i).currentIndex = i := by
      simp [goToSlide, updateCarousel_true s i hA]
    have h3 : (goToSlide (goToSlide s i) j).currentIndex = i := by
      unfold goToSlide at h1 h2 ⊢
      rw [updateCarousel_drop _ j h1, resetAutoplay_currentIndex]
      exact h2
    exact ⟨h1, h2, h3, by simp [releaseLock, h3]⟩

/-- C5 witness: on the mounted 3-slide carousel, a navigation to slide 1 sets
the lock; a second navigation to slide 2 issued before the release is dropped,
also after the release callback runs; while locked, the rendered offset does
not move either. -/
theorem locked_nav_dropped_witness :
    (goToSlide (initState 3 3) 1).isAnimating = true ∧
    (goToSlide (initState 3 3) 1).currentIndex = 1 ∧
    (goToSlide (goToSlide (initState 3 3) 1) 2).currentIndex = 1 ∧
    (releaseLock (goToSlide (goToSlide (initState 3 3) 1) 2)).currentIndex = 1 ∧
    (goToSlide (goToSlide (initState 3 3) 1) 2).trackOffset =
      (goToSlide (initState 3 3) 1).trackOffset := by
  have h2 := (locked_nav_dropped (initState 3 3) 1 2).2 (by decide)
  have h1 := (locked_nav_dropped (goToSlide (initState 3 3) 1) 2 0).1 (by decide)
  exact ⟨h2.1, h2.2.1, h2.2.2.1, h2.2.2.2, h1.2.1⟩

/-- C6: on the mounted page, a burst of resize events at 0 ms and 100 ms (gap
under the 250 ms quiet window) schedules a single debounced callback, and that
callback is delivered once the window elapses (pendingResize is consumed by
350 ms); but the callback performs zero re-sync calls and leaves the carousel
untouched, because line 488 reads carouselContainer.carouselInstance, which no
line of src/script.js ever assigns (line 455 discards the constructed
instance), so the guarded updateCarousel(currentIndex, false) on line 490 is
dead code. -/
theorem resize_resync_never_runs :
    (deliverResize (runResizeBurst (mountPage 3 3) [0, 100]) 350).resyncCount = 0 ∧
    (deliverResize (runResizeBurst (mountPage 3 3) [0, 100]) 350).carousel =
      (mountPage 3 3).carousel ∧
    (deliverResize (runResizeBurst (mountPage 3 3) [0, 100]) 350).pendingResize = none := by
  decide

/-- C7 counterexample: the state reached by one next() click on the mounted
3-slide carousel - inside the 500 ms transition window - has the animation
lock held, so the resize re-sync updateCarousel(currentIndex, false) invoked
there finds isAnimating true immediately before the call (and clears it on
return): the lock is not false immediately before the re-sync in every
reachable state. -/
theorem resync_lock_not_clear_before :
    (next (initState 3 3)).isAnimating = true ∧
    (updateCarousel (next (initState 3 3)) (next (initState 3 3)).currentIndex
        false).isAnimating = false := by
  decide

/-- C7 amended: the re-sync goTo(currentIndex, false) always returns with the
animation lock clear and the index unchanged (lines 86 and 109-111: animate
false never hits the early return and ends by clearing isAnimating); the lock
is not necessarily clear immediately before the call - invoked during the
500 ms transition window it is true before, and the re-sync releases it early. -/
theorem resync_always_clears_lock (s : CarouselState) :
    (updateCarousel s s.currentIndex false).isAnimating = false ∧
    (updateCarousel s s.currentIndex false).currentIndex = s.currentIndex := by
  simp [updateCarousel_false]

/-- C8 counterexample: startAutoplay (line 177) calls setInterval without
checking for an existing handle. From the mounted state (autoplay already
started by init on line 78), a mouseleave - which fires without a prior
mouseenter when the pointer already rests on the container at load - runs
startAutoplay again: the stored handle is overwritten and the first interval
leaks, leaving two recurring autoplay callbacks live. -/
theorem hover_leave_leaks_timer :
    (apRun (initState 3 3) [APEvent.hoverLeave]).liveTimers = 2 ∧
    ¬ (apRun (initState 3 3) [APEvent.hoverLeave]).liveTimers ≤ 1 := by
  decide

lemma apStep_handle_inv (s : CarouselState) (e : APEvent)
    (hInv : s.liveTimers = if s.autoplayHandle then 1 else 0)
    (hG : (!(apStartsTimer e) || !s.autoplayHandle) = true) :
    (apStep s e).liveTimers = if (apStep s e).autoplayHandle then 1 else 0 := by
  cases e <;> cases hh : s.autoplayHandle <;>
    simp [apStartsTimer, hh] at hG hInv ⊢ <;>
    simp [apStep, startAutoplay, stopAutoplay, resetAutoplay, hh, hInv]

lemma apRun_handle_inv (es : List APEvent) : ∀ s : CarouselState,
    s.liveTimers = (if s.autoplayHandle then 1 else 0) →
    apGuardedB s es = true →
    (apRun s es).liveTimers = if (apRun s es).autoplayHandle then 1 else 0 := by
  induction es with
  | nil =>
      intro s hInv _
      exact hInv
  | cons e es ih =>
      intro s hInv hG
      rw [apGuardedB, Bool.and_eq_true] at hG
      rw [apRun]
      exact ih (apStep s e) (apStep_handle_inv s e hInv hG.1) hG.2

/-- C8 amended: startAutoplay never checks for a live handle, so a start that
arrives while a timer is live (for example hover-leave without a preceding
hover-enter) leaks the stored interval and two recurring callbacks stay live.
Under the guard that every direct start - including hover-leave - arrives with
no stored handle (which strictly alternating hover events give, and which
stop and reset always respect), every sequence of start, stop, reset,
hover-enter and hover-leave events from construction leaves at most one live
autoplay timer. -/
theorem guarded_autoplay_single_timer (n k : Nat) (es : List APEvent)
    (hG : apGuardedB (initState n k) es = true) :
    (apRun (initState n k) es).liveTimers ≤ 1 := by
  have h0 : (initState n k).liveTimers = if (initState n k).autoplayHandle then 1 else 0 := by
    simp [initState, startAutoplay, updateCarousel_false, mkCarousel]
  rw [apRun_handle_inv es (initState n k) h0 hG]
  split <;> omega

/-- C8 witness: a guarded event sequence - hover pause and resume, a
user-navigation reset, an explicit stop and a fresh start - keeps a single
live timer. -/
theorem guarded_autoplay_single_timer_witness :
    apGuardedB (initState 3 3)
      [APEvent.hoverEnter, APEvent.hoverLeave, APEvent.reset,
       APEvent.stop, APEvent.start] = true ∧
    (apRun (initState 3 3)
      [APEvent.hoverEnter, APEvent.hoverLeave, APEvent.reset,
       APEvent.stop, APEvent.start]).liveTimers ≤ 1 :=
  ⟨by decide,
   guarded_autoplay_single_timer 3 3
     [APEvent.hoverEnter, APEvent.hoverLeave, APEvent.reset,
      APEvent.stop, APEvent.start] (by decide)⟩

/-- C9: gesture resolution on touchend (lines 158-173) with recorded start s
and end c: displacement at most 50 in absolute value (the threshold test on
line 164 is strict) leaves the carousel untouched; displacement beyond 50
calls next() when positive (dragged left) and prev() when negative. -/
theorem swipe_threshold (t : TouchState) (c : CarouselState) (hd : t.isDragging = true) :
    (|t.startX - t.currentX| ≤ 50 → (touchend t c).2 = c) ∧
    (50 < t.startX - t.currentX → (touchend t c).2 = next c) ∧
    (t.startX - t.currentX < -50 → (touchend t c).2 = prev c) := by
  refine ⟨?_, ?_, ?_⟩ <;> intro h
  · have h1 : ¬ 50 < |t.startX - t.currentX| := not_lt.mpr h
    simp [touchend, hd, h1]
  · have h1 : (50 : Int) < |t.startX - t.currentX| :=
      lt_of_lt_of_le h (le_abs_self _)
    have h2 : (0 : Int) < t.startX - t.currentX := by omega
    simp [touchend, hd, h1, h2]
  · have h1 : (50 : Int) < |t.startX - t.currentX| :=
      lt_of_lt_of_le (by omega : (50 : Int) < -(t.startX - t.currentX)) (neg_le_abs _)
    have h2 : ¬ (0 : Int) < t.startX - t.currentX := by omega
    simp [touchend, hd, h1, h2]

/-- C9 witness: a 49px swipe does nothing; 51px left calls next, 51px right
calls prev, on the mounted 3-slide carousel. -/
theorem swipe_threshold_witness :
    (touchend ⟨49, 0, true⟩ (initState 3 3)).2 = initState 3 3 ∧
    (touchend ⟨51, 0, true⟩ (initState 3 3)).2 = next (initState 3 3) ∧
    (touchend ⟨0, 51, true⟩ (initState 3 3)).2 = prev (initState 3 3) :=
  ⟨(swipe_threshold ⟨49, 0, true⟩ (initState 3 3) (by decide)).1 (by decide),
   (swipe_threshold ⟨51, 0, true⟩ (initState 3 3) (by decide)).2.1 (by decide),
   (swipe_threshold ⟨0, 51, true⟩ (initState 3 3) (by decide)).2.2 (by decide)⟩

/-- C10: touchstart (lines 148-151) records only startX and never resets
currentX, so a gesture with no touchmove computes its displacement against
whatever currentX the previous gesture left (0 before any gesture): the
displacement after touchstart at x is x minus the stale currentX, and on the
very first gesture a motionless tap at x > 50 resolves as a left swipe and
invokes next(). -/
theorem tap_uses_stale_currentX (t : TouchState) (c : CarouselState) (x : Int) :
    (touchstart t x).currentX = t.currentX ∧
    (touchstart t x).startX - (touchstart t x).currentX = x - t.currentX ∧
    (50 < x → (touchend (touchstart initTouch x) c).2 = next c) := by
  refine ⟨rfl, rfl, ?_⟩
  intro h
  have h1 : (50 : Int) < |x| := lt_of_lt_of_le h (le_abs_self x)
  have h2 : (0 : Int) < x := by omega
  simp [touchend, touchstart, initTouch, h1, h2]

/-- C10 witness: on the first gesture, a motionless tap at x = 60 invokes
next() on the mounted 3-slide carousel. -/
theorem tap_uses_stale_currentX_witness :
    (touchend (touchstart initTouch 60) (initState 3 3)).2 = next (initState 3 3) :=
  (tap_uses_stale_currentX initTouch (initState 3 3) 60).2.2 (by decide)

/-- C1 witness: the invariant theorem applied at a mounted 3-slide carousel. -/
theorem carousel_index_invariant_witness :
    IndexInv (initState 3 3) ∧ IndexInv (next (initState 3 3)) ∧
    IndexInv (goToSlide (initState 3 3) 2) :=
  ⟨carousel_index_invariant.1 3 3 (by decide),
   (carousel_index_invariant.2 (initState 3 3) (by decide)).1,
   (carousel_index_invariant.2 (initState 3 3) (by decide)).2.2.2.2.2.2.2.2.2 2
     (by decide) (by decide)⟩
